import Mathlib

/-!
Verification of `drivers/block/zram/zcomp_zstd.c` (zram zstd backend):
a shallow embedding of the backend's lifecycle functions
(`alloc_mem`, `zstd_comp_init`, `zstd_decomp_init`,
`zcomp_zstd_create_percpu`, `zcomp_zstd_create`, `zcomp_zstd_destroy`)
and of the page operations (`zcomp_zstd_compress`, `zcomp_zstd_decompress`).

Memory is modelled by a ledger: every distinct heap object the C code can
allocate is a `Region`, and the ledger records, per region, the list of
sizes of its allocations and the number of `vfree`/`kvfree`/`kfree` calls
that hit it.  A C pointer field is an `Option Region`; freeing a field
does NOT reset it (C leaves the pointer dangling), so a later free through
the same field is a second free of the same region — exactly the
double-free behaviour under study.

Failure of the kernel allocators and of the zstd engine constructors is
injected through boolean oracles, one per call site, so every failure
path of the C code is reachable in the model.

The external zstd codec itself is out of scope of the repository; where a
claim depends on its behaviour the codec is taken as an abstract function
with its contract stated as a hypothesis (marked `Modelled from the spec:`).
-/

/-- Linux error number `ENOMEM` (returned negated, as in the kernel). -/
def ENOMEM : Int := 12

/-- Linux error number `EINVAL` (returned negated, as in the kernel). -/
def EINVAL : Int := 22

/-- The distinct heap objects of the backend: the compression workspace
`cwksp`, one decompression workspace `dwksp cpu` per possible CPU, the
`struct zstd_ctx` record allocated by `zcomp_zstd_create`, and the
per-CPU slot table allocated by `alloc_percpu`. -/
inductive Region where
  | cwksp : Region
  | dwksp (cpu : Nat) : Region
  | ctxRec : Region
  | table : Region
deriving DecidableEq

/-- The memory ledger: for every region, the sizes of the allocations made
for it (most recent first) and the number of frees that hit it. -/
structure Mem where
  allocSizes : Region → List Nat
  frees : Region → Nat

/-- The empty ledger: nothing allocated, nothing freed. -/
def Mem.empty : Mem := ⟨fun _ => [], fun _ => 0⟩

/-- Record an allocation of `size` bytes for region `r`. -/
def Mem.alloc (m : Mem) (r : Region) (size : Nat) : Mem :=
  ⟨Function.update m.allocSizes r (size :: m.allocSizes r), m.frees⟩

/-- Free through a possibly-NULL pointer: `vfree(NULL)` / `kvfree(NULL)` /
`kfree(NULL)` are no-ops; a non-NULL pointer's region gets one more free
recorded, whether or not it was still live (C does not check). -/
def Mem.free (m : Mem) (p : Option Region) : Mem :=
  match p with
  | none => m
  | some r => ⟨m.allocSizes, Function.update m.frees r (m.frees r + 1)⟩

/-- Number of allocations recorded for region `r`. -/
def Mem.allocCount (m : Mem) (r : Region) : Nat := (m.allocSizes r).length

/-! ## The bounded allocator `alloc_mem`

`alloc_mem` first tries `kzalloc(size, GFP_NOIO|__GFP_NORETRY|__GFP_NOWARN)`
and, exactly when that returns NULL, falls back to
`__vmalloc(size, ...|__GFP_ZERO|__GFP_HIGHMEM, PAGE_KERNEL)`.
The two kernel allocators are environment oracles `kzalloc`, `vmalloc`
mapping a byte count to an optional byte region; zero-initialisation is a
property of the environment, stated as a hypothesis where needed. -/

/-- Shallow embedding of `alloc_mem` (zcomp_zstd.c lines 39–57): tier 1 is
`kzalloc`, tier 2 is `__vmalloc`, attempted exactly when tier 1 fails. -/
def alloc_mem (kzalloc vmalloc : Nat → Option (List Nat)) (size : Nat) :
    Option (List Nat) :=
  match kzalloc size with
  | some ret => some ret
  | none => vmalloc size

/-! ## Workspace sizing

`zstd_params()` returns `ZSTD_getParams(ZRAM_ZSTD_LEVEL, PAGE_SIZE, 0)`;
the compression workspace size is `ZSTD_CCtxWorkspaceBound(params.cParams)`
and the decompression workspace size is `ZSTD_DCtxWorkspaceBound()`, a
zero-argument call.  The codec's sizing functions are environment
parameters, bundled in `ZstdEnv` together with the platform page size. -/

/-- The compression parameter record returned by `ZSTD_getParams`; only its
`cParams` field is consumed by the driver, so it is kept opaque (a tag). -/
structure ZSTD_parameters where
  cParams : Nat
deriving DecidableEq

/-- The codec-sizing environment: `ZSTD_getParams` (level, size estimate,
dictionary size), `ZSTD_CCtxWorkspaceBound` (a function of the compression
parameters), `ZSTD_DCtxWorkspaceBound` (a constant), and the platform's
`PAGE_SIZE`.  All are pure functions fixed for the life of the system. -/
structure ZstdEnv where
  ZSTD_getParams : Nat → Nat → Nat → ZSTD_parameters
  ZSTD_CCtxWorkspaceBound : Nat → Nat
  ZSTD_DCtxWorkspaceBound : Nat
  PAGE_SIZE : Nat

/-- The fixed compression level: `#define ZRAM_ZSTD_LEVEL 1`
(zcomp_zstd.c line 32). -/
def ZRAM_ZSTD_LEVEL : Nat := 1

/-- Shallow embedding of `zstd_params` (lines 34–37): parameters computed
from the fixed level, the page size and a zero dictionary size only. -/
def zstd_params (env : ZstdEnv) : ZSTD_parameters :=
  env.ZSTD_getParams ZRAM_ZSTD_LEVEL env.PAGE_SIZE 0

/-- The compression workspace size `zstd_comp_init` computes:
`ZSTD_CCtxWorkspaceBound(zstd_params().cParams)`. -/
def cwksp_size (env : ZstdEnv) : Nat :=
  env.ZSTD_CCtxWorkspaceBound (zstd_params env).cParams

/-! ## Contexts and their initialisation

`struct zstd_ctx` holds the compression workspace pointer and the `cctx`
handle; `struct percpu_zstd_dctx` holds one CPU's decompression workspace
pointer and `dctx` handle.  The handles live inside their workspaces, so
in the model a handle is just the fact that it was constructed. -/

/-- The record `struct zstd_ctx` (lines 25–28): `cwksp` is a possibly-NULL (and
possibly dangling) pointer, `cctx` records whether `ZSTD_initCCtx`
succeeded on the workspace. -/
structure zstd_ctx where
  cwksp : Option Region
  cctx : Bool
deriving DecidableEq

/-- The record `struct percpu_zstd_dctx` (lines 20–23), one slot of the per-CPU
table. -/
structure percpu_zstd_dctx where
  dwksp : Option Region
  dctx : Bool
deriving DecidableEq

/-- Failure injection for one `*_init` call: does its `alloc_mem` succeed,
and does its `ZSTD_init?Ctx` succeed. -/
structure InitOracle where
  allocOk : Bool
  initOk : Bool
deriving DecidableEq

/-- Shallow embedding of `zstd_comp_init` (lines 59–81).  On allocation
failure: `ctx->cwksp` is the NULL result and `-ENOMEM` is returned.  On
`ZSTD_initCCtx` failure: the workspace is `vfree`d, the (now dangling)
pointer is left in place, and `-EINVAL` is returned. -/
def zstd_comp_init (o : InitOracle) (ctx : zstd_ctx) (env : ZstdEnv)
    (m : Mem) : Int × zstd_ctx × Mem :=
  let wksp_size := cwksp_size env
  if o.allocOk then
    let m := m.alloc .cwksp wksp_size
    let ctx := { ctx with cwksp := some .cwksp }
    if o.initOk then
      (0, { ctx with cctx := true }, m)
    else
      (-EINVAL, ctx, m.free ctx.cwksp)
  else
    (-ENOMEM, { ctx with cwksp := none }, m)

/-- Shallow embedding of `zstd_decomp_init` (lines 83–104) for the slot of
CPU `cpu`; same shape as `zstd_comp_init` with the constant
`ZSTD_DCtxWorkspaceBound()` size. -/
def zstd_decomp_init (o : InitOracle) (cpu : Nat) (ctx : percpu_zstd_dctx)
    (env : ZstdEnv) (m : Mem) : Int × percpu_zstd_dctx × Mem :=
  let wksp_size := env.ZSTD_DCtxWorkspaceBound
  if o.allocOk then
    let m := m.alloc (.dwksp cpu) wksp_size
    let ctx := { ctx with dwksp := some (.dwksp cpu) }
    if o.initOk then
      (0, { ctx with dctx := true }, m)
    else
      (-EINVAL, ctx, m.free ctx.dwksp)
  else
    (-ENOMEM, { ctx with dwksp := none }, m)

/-! ## The per-CPU decompression pool

`static void* percpu_dctx` is process-wide mutable state.  The global
state `GState` carries it (NULL = `none`; otherwise the table's contents,
a function from CPU index to slot) together with the memory ledger.
`alloc_percpu` zero-initialises the table, so a fresh table has every
slot `{dwksp = NULL, dctx = NULL}`. -/

/-- Process-wide state: the `percpu_dctx` global (with, when non-NULL, the
slot stored for each possible CPU) and the memory ledger. -/
structure GState where
  percpu_dctx : Option (Nat → percpu_zstd_dctx)
  mem : Mem

/-- A freshly `alloc_percpu`ed slot: all fields zero. -/
def freshSlot : percpu_zstd_dctx := ⟨none, false⟩

/-- The `for_each_possible_cpu` loop of `zcomp_zstd_create_percpu`
(lines 116–121): initialise the slot of each CPU in order, stopping at the
first failing slot with its error code. -/
def initSlotsLoop (oracle : Nat → InitOracle) (env : ZstdEnv) :
    List Nat → (Nat → percpu_zstd_dctx) → Mem →
    Int × (Nat → percpu_zstd_dctx) × Mem
  | [], tbl, m => (0, tbl, m)
  | cpu :: rest, tbl, m =>
    let r := zstd_decomp_init (oracle cpu) cpu (tbl cpu) env m
    let tbl := Function.update tbl cpu r.2.1
    if r.1 = 0 then initSlotsLoop oracle env rest tbl r.2.2
    else (r.1, tbl, r.2.2)

/-- The `failure:` rollback loop of `zcomp_zstd_create_percpu`
(lines 126–129): `vfree` the `dwksp` pointer of every possible CPU's slot
(a NULL pointer is a no-op; a dangling one is freed again). -/
def freeAllSlots (nr_cpus : Nat) (tbl : Nat → percpu_zstd_dctx) (m : Mem) :
    Mem :=
  (List.range nr_cpus).foldl (fun m cpu => m.free (tbl cpu).dwksp) m

/-- Shallow embedding of `zcomp_zstd_create_percpu` (lines 106–132).
`tableOk` injects the success of `alloc_percpu`; `oracle cpu` injects the
outcome of CPU `cpu`'s `zstd_decomp_init`; the possible CPUs are
`0, …, nr_cpus - 1`.  On slot failure the rollback loop frees every
slot's `dwksp`, but the table itself is not released and `percpu_dctx`
keeps pointing at it. -/
def zcomp_zstd_create_percpu (nr_cpus : Nat) (tableOk : Bool)
    (oracle : Nat → InitOracle) (env : ZstdEnv) (g : GState) :
    Int × GState :=
  if tableOk then
    let m := g.mem.alloc .table nr_cpus
    let r := initSlotsLoop oracle env (List.range nr_cpus)
      (fun _ => freshSlot) m
    if r.1 = 0 then
      (0, ⟨some r.2.1, r.2.2⟩)
    else
      (r.1, ⟨some r.2.1, freeAllSlots nr_cpus r.2.1 r.2.2⟩)
  else
    (-ENOMEM, ⟨none, g.mem⟩)

/-! ## The backend facade: create and destroy -/

/-- Failure injection for one `zcomp_zstd_create` call: the `kmalloc` of
the `struct zstd_ctx` record, the compression-context init, the
`alloc_percpu` of the table, and each CPU slot's init. -/
structure CreateOracle where
  ctxAllocOk : Bool
  comp : InitOracle
  tableOk : Bool
  slot : Nat → InitOracle

/-- Shallow embedding of `zcomp_zstd_create` (lines 134–156): `kmalloc`
the record, run `zstd_comp_init`, then `zcomp_zstd_create_percpu`; on
either failure, `goto failed` which does `kvfree(ctx->cwksp)` and returns
NULL — the record itself is not freed.  Returns the `void *` result
(the record with its fields) and the new global state. -/
def zcomp_zstd_create (nr_cpus : Nat) (o : CreateOracle) (env : ZstdEnv)
    (g : GState) : Option zstd_ctx × GState :=
  if o.ctxAllocOk then
    let m := g.mem.alloc .ctxRec 1
    let r := zstd_comp_init o.comp ⟨none, false⟩ env m
    let ctx := r.2.1
    if r.1 = 0 then
      let rp := zcomp_zstd_create_percpu nr_cpus o.tableOk o.slot env
        ⟨g.percpu_dctx, r.2.2⟩
      if rp.1 = 0 then
        (some ctx, rp.2)
      else
        (none, ⟨rp.2.percpu_dctx, rp.2.mem.free ctx.cwksp⟩)
    else
      (none, ⟨g.percpu_dctx, r.2.2.free ctx.cwksp⟩)
  else
    (none, g)

/-- Shallow embedding of `zcomp_zstd_destroy` (lines 158–179): if the
`private` handle is non-NULL, `kvfree` its `cwksp`; if `percpu_dctx` is
non-NULL, `vfree` every possible CPU's `dwksp`, `free_percpu` the table
and clear the global; finally `kfree` the handle (`kfree(NULL)` is a
no-op). -/
def zcomp_zstd_destroy (nr_cpus : Nat) (priv : Option zstd_ctx)
    (g : GState) : GState :=
  let m :=
    match priv with
    | some ctx => g.mem.free ctx.cwksp
    | none => g.mem
  let g2 : GState :=
    match g.percpu_dctx with
    | some tbl =>
      let m := freeAllSlots nr_cpus tbl m
      let m := m.free (some .table)
      ⟨none, m⟩
    | none => ⟨g.percpu_dctx, m⟩
  match priv with
  | some _ => ⟨g2.percpu_dctx, g2.mem.free (some .ctxRec)⟩
  | none => g2

/-! ## Page operations: compress and decompress

The zstd engine itself is an external collaborator.  Modelled from the
spec: the codec, given an engine handle over a pre-sized workspace, can
"perform compress/decompress over a block of bytes, returning either a
length or an error code", and can "classify a result as an error with an
associated diagnostic code".  An engine call is hence an abstract function
from its byte inputs and capacities to a `ZstdResult` together with the
bytes it leaves in the destination buffer. -/

/-- Modelled from the spec: the codec's result, either a byte length or an
error with a diagnostic code (the kernel packs both into one `size_t`;
`ZSTD_isError` / `ZSTD_getErrorCode` decode it). -/
inductive ZstdResult where
  | ok (len : Nat) : ZstdResult
  | err (code : Nat) : ZstdResult
deriving DecidableEq

/-- Modelled from the spec: `ZSTD_isError`, the codec's boolean error
classifier — an `unsigned` that is `1` on an error result and `0`
otherwise. -/
def ZSTD_isError : ZstdResult → Nat
  | .ok _ => 0
  | .err _ => 1

/-- Modelled from the spec: `ZSTD_getErrorCode`, the diagnostic code
associated with an error result. -/
def ZSTD_getErrorCode : ZstdResult → Nat
  | .ok _ => 0
  | .err c => c

/-- The type of the abstract `ZSTD_compressCCtx` engine call:
source bytes, source size, destination capacity and parameters, mapped to
the codec's result and the bytes left in the destination buffer. -/
def CCtxFun : Type := List Nat → Nat → Nat → ZSTD_parameters →
  ZstdResult × List Nat

/-- The type of the abstract `ZSTD_decompressDCtx` engine call:
source bytes, source length and destination capacity, mapped to the
codec's result and the bytes left in the destination buffer. -/
def DCtxFun : Type := List Nat → Nat → Nat → ZstdResult × List Nat

/-- Observable outcome of one `zcomp_zstd_compress` call: the `int`
return value, the destination buffer contents, the caller's `*dst_len`
after the call, and the diagnostic code printed by `pr_err`, if any. -/
structure CompressOut where
  ret : Int
  dst : List Nat
  dst_len : Nat
  logged : Option Nat
deriving DecidableEq

/-- Shallow embedding of `zcomp_zstd_compress` (lines 181–196): run the
engine with source size `PAGE_SIZE`, destination capacity `2 * PAGE_SIZE`
and the fixed `zstd_params()`.  On an error result, log the diagnostic
code and return `ZSTD_isError(len)` — the caller's `*dst_len` is not
written.  Otherwise write `*dst_len = len` and return 0. -/
def zcomp_zstd_compress (ZSTD_compressCCtx : CCtxFun) (env : ZstdEnv)
    (src : List Nat) (dst_len : Nat) : CompressOut :=
  let r := ZSTD_compressCCtx src env.PAGE_SIZE (2 * env.PAGE_SIZE)
    (zstd_params env)
  match r with
  | (.err c, out) =>
    ⟨(ZSTD_isError (.err c) : Nat), out, dst_len,
      some (ZSTD_getErrorCode (.err c))⟩
  | (.ok len, out) => ⟨0, out, len, none⟩

/-- Observable outcome of one `zcomp_zstd_decompress` call: the `int`
return value, the one-page destination buffer contents, and the logged
diagnostic code, if any. -/
structure DecompressOut where
  ret : Int
  dst : List Nat
  logged : Option Nat
deriving DecidableEq

/-- Shallow embedding of `zcomp_zstd_decompress` (lines 198–214): run the
calling CPU's engine over the compressed bytes with destination capacity
`PAGE_SIZE`; on an error result log the diagnostic code and return
`-EINVAL`, else return 0.  (The engine handle selected through
`this_cpu_ptr(percpu_dctx)` is carried by the abstract engine
function.) -/
def zcomp_zstd_decompress (ZSTD_decompressDCtx : DCtxFun) (env : ZstdEnv)
    (src : List Nat) (src_len : Nat) : DecompressOut :=
  let r := ZSTD_decompressDCtx src src_len env.PAGE_SIZE
  match r with
  | (.err c, out) => ⟨-EINVAL, out, some c⟩
  | (.ok _, out) => ⟨0, out, none⟩

/-! ## Ledger and loop lemmas -/

theorem Mem.frees_alloc (m : Mem) (r : Region) (s : Nat) :
    (m.alloc r s).frees = m.frees := rfl

theorem Mem.allocSizes_free (m : Mem) (p : Option Region) :
    (m.free p).allocSizes = m.allocSizes := by
  cases p <;> rfl

theorem Mem.allocSizes_alloc_ne (m : Mem) (r r' : Region) (s : Nat)
    (h : r' ≠ r) : (m.alloc r s).allocSizes r' = m.allocSizes r' := by
  simp [Mem.alloc, Function.update_noteq h]

theorem Mem.frees_free_ne (m : Mem) (r r' : Region) (h : r' ≠ r) :
    (m.free (some r)).frees r' = m.frees r' := by
  simp [Mem.free, Function.update_noteq h]

theorem Mem.mem_allocSizes_alloc (m : Mem) (r r' : Region) (s s' : Nat)
    (h : s' ∈ (m.alloc r s).allocSizes r') :
    s' ∈ m.allocSizes r' ∨ s' = s := by
  by_cases hr : r' = r
  · subst hr
    simp [Mem.alloc, Function.update_same] at h
    rcases h with h | h
    · exact Or.inr h
    · exact Or.inl h
  · exact Or.inl (by rwa [Mem.allocSizes_alloc_ne m r r' s hr] at h)

/-- A slot table is well formed when every slot's workspace pointer, if
non-NULL, points at some CPU's decompression workspace region. -/
def TblWf (tbl : Nat → percpu_zstd_dctx) : Prop :=
  ∀ cpu r, (tbl cpu).dwksp = some r → ∃ k, r = Region.dwksp k

theorem TblWf_fresh : TblWf (fun _ => freshSlot) := by
  intro cpu r h
  simp [freshSlot] at h

/-- The function `zstd_decomp_init` leaves the slot's pointer NULL or pointing at its
own CPU's workspace region. -/
theorem zstd_decomp_init_dwksp (o : InitOracle) (cpu : Nat)
    (ctx : percpu_zstd_dctx) (env : ZstdEnv) (m : Mem) :
    ((zstd_decomp_init o cpu ctx env m).2.1).dwksp = none ∨
    ((zstd_decomp_init o cpu ctx env m).2.1).dwksp = some (.dwksp cpu) := by
  unfold zstd_decomp_init
  by_cases ha : o.allocOk <;> by_cases hi : o.initOk <;> simp [ha, hi]

/-- The function `zstd_decomp_init` touches no region other than its CPU's `dwksp`. -/
theorem zstd_decomp_init_preserved (o : InitOracle) (cpu : Nat)
    (ctx : percpu_zstd_dctx) (env : ZstdEnv) (m : Mem) (r : Region)
    (h : ∀ c, r ≠ Region.dwksp c) :
    ((zstd_decomp_init o cpu ctx env m).2.2).frees r = m.frees r ∧
    ((zstd_decomp_init o cpu ctx env m).2.2).allocSizes r =
      m.allocSizes r := by
  unfold zstd_decomp_init
  by_cases ha : o.allocOk <;> by_cases hi : o.initOk <;>
    simp [ha, hi, Mem.alloc, Mem.free,
      Function.update_noteq (h cpu)]

/-- Every allocation `zstd_decomp_init` makes has size
`ZSTD_DCtxWorkspaceBound`. -/
theorem zstd_decomp_init_allocSizes_mem (o : InitOracle) (cpu : Nat)
    (ctx : percpu_zstd_dctx) (env : ZstdEnv) (m : Mem) (r : Region)
    (s : Nat)
    (h : s ∈ ((zstd_decomp_init o cpu ctx env m).2.2).allocSizes r) :
    s ∈ m.allocSizes r ∨ s = env.ZSTD_DCtxWorkspaceBound := by
  unfold zstd_decomp_init at h
  by_cases ha : o.allocOk <;> by_cases hi : o.initOk <;>
    simp [ha, hi, Mem.allocSizes_free] at h
  · exact Mem.mem_allocSizes_alloc m _ r _ s h
  · exact Mem.mem_allocSizes_alloc m _ r _ s h
  · exact Or.inl h
  · exact Or.inl h

/-- The slot-initialisation loop preserves table well-formedness. -/
theorem initSlotsLoop_TblWf (oracle : Nat → InitOracle) (env : ZstdEnv) :
    ∀ (l : List Nat) (tbl : Nat → percpu_zstd_dctx) (m : Mem),
    TblWf tbl → TblWf ((initSlotsLoop oracle env l tbl m).2.1)
  | [], tbl, m, hwf => hwf
  | cpu :: rest, tbl, m, hwf => by
    unfold initSlotsLoop
    have hup : TblWf (Function.update tbl cpu
        (zstd_decomp_init (oracle cpu) cpu (tbl cpu) env m).2.1) := by
      intro c r hc
      by_cases hcc : c = cpu
      · subst hcc
        rw [Function.update_same] at hc
        rcases zstd_decomp_init_dwksp (oracle c) c (tbl c) env m with h0 | h0
        · rw [h0] at hc; cases hc
        · rw [h0] at hc; exact ⟨c, (Option.some_inj.mp hc).symm⟩
      · rw [Function.update_noteq hcc] at hc
        exact hwf c r hc
    by_cases hret : (zstd_decomp_init (oracle cpu) cpu (tbl cpu) env m).1 = 0
    · simp only [hret, if_pos rfl]
      exact initSlotsLoop_TblWf oracle env rest _ _ hup
    · simp only [if_neg hret]
      exact hup

/-- The slot-initialisation loop touches no region outside the `dwksp`
family. -/
theorem initSlotsLoop_preserved (oracle : Nat → InitOracle) (env : ZstdEnv)
    (r : Region) (h : ∀ c, r ≠ Region.dwksp c) :
    ∀ (l : List Nat) (tbl : Nat → percpu_zstd_dctx) (m : Mem),
    ((initSlotsLoop oracle env l tbl m).2.2).frees r = m.frees r ∧
    ((initSlotsLoop oracle env l tbl m).2.2).allocSizes r = m.allocSizes r
  | [], tbl, m => ⟨rfl, rfl⟩
  | cpu :: rest, tbl, m => by
    unfold initSlotsLoop
    have hstep := zstd_decomp_init_preserved (oracle cpu) cpu (tbl cpu)
      env m r h
    by_cases hret : (zstd_decomp_init (oracle cpu) cpu (tbl cpu) env m).1 = 0
    · simp only [hret, if_pos rfl]
      have hrec := initSlotsLoop_preserved oracle env r h rest
        (Function.update tbl cpu
          (zstd_decomp_init (oracle cpu) cpu (tbl cpu) env m).2.1)
        (zstd_decomp_init (oracle cpu) cpu (tbl cpu) env m).2.2
      exact ⟨hrec.1.trans hstep.1, hrec.2.trans hstep.2⟩
    · simp only [if_neg hret]
      exact hstep

/-- Every allocation the slot-initialisation loop makes has size
`ZSTD_DCtxWorkspaceBound`. -/
theorem initSlotsLoop_allocSizes_mem (oracle : Nat → InitOracle)
    (env : ZstdEnv) (r : Region) (s : Nat) :
    ∀ (l : List Nat) (tbl : Nat → percpu_zstd_dctx) (m : Mem),
    s ∈ ((initSlotsLoop oracle env l tbl m).2.2).allocSizes r →
    s ∈ m.allocSizes r ∨ s = env.ZSTD_DCtxWorkspaceBound
  | [], tbl, m, hs => Or.inl hs
  | cpu :: rest, tbl, m, hs => by
    unfold initSlotsLoop at hs
    by_cases hret : (zstd_decomp_init (oracle cpu) cpu (tbl cpu) env m).1 = 0
    · simp only [hret, if_pos rfl] at hs
      rcases initSlotsLoop_allocSizes_mem oracle env r s rest _ _ hs with
        h1 | h1
      · exact zstd_decomp_init_allocSizes_mem (oracle cpu) cpu (tbl cpu)
          env m r s h1
      · exact Or.inr h1
    · simp only [if_neg hret] at hs
      exact zstd_decomp_init_allocSizes_mem (oracle cpu) cpu (tbl cpu)
        env m r s hs

/-- The rollback loop frees only `dwksp` regions and never changes
allocation records. -/
theorem freeAllSlots_preserved (r : Region) (h : ∀ c, r ≠ Region.dwksp c) :
    ∀ (l : List Nat) (tbl : Nat → percpu_zstd_dctx) (m : Mem),
    TblWf tbl →
    ((List.foldl (fun m cpu => m.free (tbl cpu).dwksp) m l)).frees r =
      m.frees r
  | [], tbl, m, _ => rfl
  | cpu :: rest, tbl, m, hwf => by
    simp only [List.foldl_cons]
    have hstep : (m.free (tbl cpu).dwksp).frees r = m.frees r := by
      cases hd : (tbl cpu).dwksp with
      | none => simp [Mem.free]
      | some rr =>
        rcases hwf cpu rr hd with ⟨k, hk⟩
        subst hk
        exact Mem.frees_free_ne m _ r (h k)
    exact (freeAllSlots_preserved r h rest tbl _ hwf).trans hstep

theorem freeAllSlots_allocSizes :
    ∀ (l : List Nat) (tbl : Nat → percpu_zstd_dctx) (m : Mem),
    ((List.foldl (fun m cpu => m.free (tbl cpu).dwksp) m l)).allocSizes =
      m.allocSizes
  | [], tbl, m => rfl
  | cpu :: rest, tbl, m => by
    simp only [List.foldl_cons]
    exact (freeAllSlots_allocSizes rest tbl _).trans
      (Mem.allocSizes_free m (tbl cpu).dwksp)

/-- The function `zstd_comp_init` touches no region other than `cwksp`. -/
theorem zstd_comp_init_preserved (o : InitOracle) (ctx : zstd_ctx)
    (env : ZstdEnv) (m : Mem) (r : Region) (h : r ≠ Region.cwksp) :
    ((zstd_comp_init o ctx env m).2.2).frees r = m.frees r ∧
    ((zstd_comp_init o ctx env m).2.2).allocSizes r = m.allocSizes r := by
  unfold zstd_comp_init
  by_cases ha : o.allocOk <;> by_cases hi : o.initOk <;>
    simp [ha, hi, Mem.alloc, Mem.free, Function.update_noteq h]

/-- Every allocation `zstd_comp_init` makes has size `cwksp_size`. -/
theorem zstd_comp_init_allocSizes_mem (o : InitOracle) (ctx : zstd_ctx)
    (env : ZstdEnv) (m : Mem) (r : Region) (s : Nat)
    (h : s ∈ ((zstd_comp_init o ctx env m).2.2).allocSizes r) :
    s ∈ m.allocSizes r ∨ s = cwksp_size env := by
  unfold zstd_comp_init at h
  by_cases ha : o.allocOk <;> by_cases hi : o.initOk <;>
    simp [ha, hi, Mem.allocSizes_free] at h
  · exact Mem.mem_allocSizes_alloc m _ r _ s h
  · exact Mem.mem_allocSizes_alloc m _ r _ s h
  · exact Or.inl h
  · exact Or.inl h

/-- The function `zstd_comp_init` leaves `ctx->cwksp` NULL or pointing at the
compression-workspace region. -/
theorem zstd_comp_init_cwksp (o : InitOracle) (ctx : zstd_ctx)
    (env : ZstdEnv) (m : Mem) :
    ((zstd_comp_init o ctx env m).2.1).cwksp = none ∨
    ((zstd_comp_init o ctx env m).2.1).cwksp = some Region.cwksp := by
  unfold zstd_comp_init
  by_cases ha : o.allocOk <;> by_cases hi : o.initOk <;> simp [ha, hi]

/-- The function `zcomp_zstd_create_percpu` touches no region outside the `dwksp`
family and the table. -/
theorem zcomp_zstd_create_percpu_preserved (nr : Nat) (tableOk : Bool)
    (oracle : Nat → InitOracle) (env : ZstdEnv) (g : GState) (r : Region)
    (h1 : ∀ c, r ≠ Region.dwksp c) (h2 : r ≠ Region.table) :
    ((zcomp_zstd_create_percpu nr tableOk oracle env g).2).mem.frees r =
      g.mem.frees r ∧
    ((zcomp_zstd_create_percpu nr tableOk oracle env g).2).mem.allocSizes r
      = g.mem.allocSizes r := by
  unfold zcomp_zstd_create_percpu
  by_cases ht : tableOk
  · simp only [ht, if_pos rfl]
    have halloc : (g.mem.alloc .table nr).frees r = g.mem.frees r ∧
        (g.mem.alloc .table nr).allocSizes r = g.mem.allocSizes r :=
      ⟨rfl, Mem.allocSizes_alloc_ne g.mem _ r nr h2⟩
    have hloop := initSlotsLoop_preserved oracle env r h1
      (List.range nr) (fun _ => freshSlot) (g.mem.alloc .table nr)
    by_cases hret :
        (initSlotsLoop oracle env (List.range nr) (fun _ => freshSlot)
          (g.mem.alloc .table nr)).1 = 0
    · simp only [hret, if_pos rfl]
      exact ⟨hloop.1.trans halloc.1, hloop.2.trans halloc.2⟩
    · simp only [if_neg hret]
      have hwf := initSlotsLoop_TblWf oracle env (List.range nr)
        (fun _ => freshSlot) (g.mem.alloc .table nr) TblWf_fresh
      constructor
      · unfold freeAllSlots
        exact ((freeAllSlots_preserved r h1 (List.range nr) _ _ hwf).trans
          hloop.1).trans halloc.1
      · unfold freeAllSlots
        exact ((congrFun (freeAllSlots_allocSizes (List.range nr) _ _) r).trans
          hloop.2).trans halloc.2
  · simp only [ht, if_neg (Bool.false_ne_true ∘ congrArg id)]
    simp [ht]

/-- Every allocation `zcomp_zstd_create_percpu` makes outside the table
region has size `ZSTD_DCtxWorkspaceBound`. -/
theorem zcomp_zstd_create_percpu_allocSizes_mem (nr : Nat) (tableOk : Bool)
    (oracle : Nat → InitOracle) (env : ZstdEnv) (g : GState) (r : Region)
    (h2 : r ≠ Region.table) (s : Nat)
    (h : s ∈ ((zcomp_zstd_create_percpu nr tableOk oracle env g).2).mem.allocSizes r) :
    s ∈ g.mem.allocSizes r ∨ s = env.ZSTD_DCtxWorkspaceBound := by
  unfold zcomp_zstd_create_percpu at h
  by_cases ht : tableOk
  · simp only [ht, if_pos rfl] at h
    have halloc : (g.mem.alloc .table nr).allocSizes r = g.mem.allocSizes r :=
      Mem.allocSizes_alloc_ne g.mem _ r nr h2
    by_cases hret :
        (initSlotsLoop oracle env (List.range nr) (fun _ => freshSlot)
          (g.mem.alloc .table nr)).1 = 0
    · simp only [hret, if_pos rfl] at h
      have := initSlotsLoop_allocSizes_mem oracle env r s (List.range nr)
        (fun _ => freshSlot) (g.mem.alloc .table nr) h
      rwa [halloc] at this
    · simp only [if_neg hret, if_true] at h
      unfold freeAllSlots at h
      rw [congrFun (freeAllSlots_allocSizes (List.range nr) _ _) r] at h
      have := initSlotsLoop_allocSizes_mem oracle env r s (List.range nr)
        (fun _ => freshSlot) (g.mem.alloc .table nr) h
      rwa [halloc] at this
  · simp only [ht] at h
    simp at h
    exact Or.inl h

/-! ## Concrete instances for evaluation -/

/-- A concrete sizing environment: page size 4, compression workspace
bound 10 for every parameter set, decompression workspace bound 3. -/
def envW : ZstdEnv := ⟨fun _ _ _ => ⟨0⟩, fun _ => 10, 3, 4⟩

/-- The all-success failure-injection oracle for `zcomp_zstd_create`. -/
def allOk : CreateOracle := ⟨true, ⟨true, true⟩, true, fun _ => ⟨true, true⟩⟩

/-- Failure injection making `alloc_percpu` fail inside
`zcomp_zstd_create`. -/
def tableFail : CreateOracle := ⟨true, ⟨true, true⟩, false, fun _ => ⟨true, true⟩⟩

/-! ## Claims -/

/-- C1: the claim states that when a per-CPU slot fails during
`zcomp_zstd_create_percpu`, every slot initialised so far is freed, the
slot table itself is freed, and `percpu_dctx` is NULL afterwards.  Run at
the failing input (2 possible CPUs, slot 0 succeeds, slot 1's `alloc_mem`
fails): the code frees slot 0's workspace, but it allocates the table
without ever freeing it and leaves `percpu_dctx` non-NULL — the table is
leaked, contradicting the claim. -/
theorem C1_rollback_leaves_table_allocated :
    (zcomp_zstd_create_percpu 2 true
        (fun cpu => if cpu = 0 then ⟨true, true⟩ else ⟨false, true⟩)
        envW ⟨none, Mem.empty⟩).1 = -ENOMEM ∧
    ((zcomp_zstd_create_percpu 2 true
        (fun cpu => if cpu = 0 then ⟨true, true⟩ else ⟨false, true⟩)
        envW ⟨none, Mem.empty⟩).2).mem.frees (.dwksp 0) = 1 ∧
    ((zcomp_zstd_create_percpu 2 true
        (fun cpu => if cpu = 0 then ⟨true, true⟩ else ⟨false, true⟩)
        envW ⟨none, Mem.empty⟩).2).mem.allocCount (.dwksp 0) = 1 ∧
    ((zcomp_zstd_create_percpu 2 true
        (fun cpu => if cpu = 0 then ⟨true, true⟩ else ⟨false, true⟩)
        envW ⟨none, Mem.empty⟩).2).mem.allocCount .table = 1 ∧
    ((zcomp_zstd_create_percpu 2 true
        (fun cpu => if cpu = 0 then ⟨true, true⟩ else ⟨false, true⟩)
        envW ⟨none, Mem.empty⟩).2).mem.frees .table = 0 ∧
    ((zcomp_zstd_create_percpu 2 true
        (fun cpu => if cpu = 0 then ⟨true, true⟩ else ⟨false, true⟩)
        envW ⟨none, Mem.empty⟩).2).percpu_dctx.isSome = true := by
  decide

/-- C2: the claim states every workspace is freed exactly once on every
path, including the paths where engine-handle construction fails after
the workspace was allocated.  Run at two such inputs: when
`ZSTD_initCCtx` fails, `zstd_comp_init` `vfree`s `cwksp` and
`zcomp_zstd_create`'s `failed:` label `kvfree`s the same dangling pointer
again (2 frees of 1 allocation); when `ZSTD_initDCtx` fails,
`zstd_decomp_init` `vfree`s the slot's `dwksp` and the rollback loop of
`zcomp_zstd_create_percpu` `vfree`s it again (2 frees of 1 allocation) —
both are double frees, contradicting the claim. -/
theorem C2_workspace_double_free :
    ((zcomp_zstd_create 1 ⟨true, ⟨true, false⟩, true, fun _ => ⟨true, true⟩⟩
        envW ⟨none, Mem.empty⟩).1 = none ∧
     ((zcomp_zstd_create 1 ⟨true, ⟨true, false⟩, true, fun _ => ⟨true, true⟩⟩
        envW ⟨none, Mem.empty⟩).2).mem.allocCount .cwksp = 1 ∧
     ((zcomp_zstd_create 1 ⟨true, ⟨true, false⟩, true, fun _ => ⟨true, true⟩⟩
        envW ⟨none, Mem.empty⟩).2).mem.frees .cwksp = 2) ∧
    ((zcomp_zstd_create_percpu 1 true (fun _ => ⟨true, false⟩) envW
        ⟨none, Mem.empty⟩).1 = -EINVAL ∧
     ((zcomp_zstd_create_percpu 1 true (fun _ => ⟨true, false⟩) envW
        ⟨none, Mem.empty⟩).2).mem.allocCount (.dwksp 0) = 1 ∧
     ((zcomp_zstd_create_percpu 1 true (fun _ => ⟨true, false⟩) envW
        ⟨none, Mem.empty⟩).2).mem.frees (.dwksp 0) = 2) := by
  decide

/-- C4: on the failure branches of `zcomp_zstd_create` (compression-context
init failure or per-CPU pool creation failure), the inner compression
workspace is freed (at least as many frees as allocations of it) but the
`struct zstd_ctx` record allocated at the start is never freed before NULL
is returned — the facade record is leaked. -/
theorem C4_create_failure_leaks_facade_record (nr : Nat) (o : CreateOracle)
    (env : ZstdEnv) (pd : Option (Nat → percpu_zstd_dctx))
    (hctx : o.ctxAllocOk = true)
    (hfail : (zcomp_zstd_create nr o env ⟨pd, Mem.empty⟩).1 = none) :
    ((zcomp_zstd_create nr o env ⟨pd, Mem.empty⟩).2).mem.allocCount .ctxRec
      = 1 ∧
    ((zcomp_zstd_create nr o env ⟨pd, Mem.empty⟩).2).mem.frees .ctxRec
      = 0 ∧
    ((zcomp_zstd_create nr o env ⟨pd, Mem.empty⟩).2).mem.frees .cwksp ≥
    ((zcomp_zstd_create nr o env ⟨pd, Mem.empty⟩).2).mem.allocCount
      .cwksp := by
  have heinval : ¬((-EINVAL : Int) = 0) := by decide
  have henomem : ¬((-ENOMEM : Int) = 0) := by decide
  unfold zcomp_zstd_create at hfail ⊢
  simp only [hctx, if_true] at hfail ⊢
  by_cases ha : o.comp.allocOk
  · by_cases hi : o.comp.initOk
    · -- compression context succeeds; the per-CPU pool must have failed
      simp only [zstd_comp_init, ha, hi, if_true, if_pos rfl] at hfail ⊢
      by_cases hp : (zcomp_zstd_create_percpu nr o.tableOk o.slot env
          ⟨pd, (Mem.empty.alloc Region.ctxRec 1).alloc Region.cwksp
            (cwksp_size env)⟩).1 = 0
      · simp only [hp, if_pos rfl] at hfail
        cases hfail
      · simp only [if_neg hp] at hfail ⊢
        have hpres₁ := zcomp_zstd_create_percpu_preserved nr o.tableOk
          o.slot env ⟨pd, (Mem.empty.alloc Region.ctxRec 1).alloc
            Region.cwksp (cwksp_size env)⟩ Region.ctxRec
          (fun c => by simp) (by simp)
        have hpres₂ := zcomp_zstd_create_percpu_preserved nr o.tableOk
          o.slot env ⟨pd, (Mem.empty.alloc Region.ctxRec 1).alloc
            Region.cwksp (cwksp_size env)⟩ Region.cwksp
          (fun c => by simp) (by simp)
        refine ⟨?_, ?_, ?_⟩
        · rw [Mem.allocCount, Mem.allocSizes_free, hpres₁.2]
          simp [Mem.alloc, Mem.empty, Function.update_noteq,
            Function.update_same]
        · rw [Mem.frees_free_ne _ _ _ (by simp), hpres₁.1]
          simp [Mem.alloc, Mem.empty]
        · rw [Mem.allocCount, Mem.allocSizes_free, hpres₂.2]
          have h1 : ∀ mp : Mem, (mp.free (some Region.cwksp)).frees
              Region.cwksp = mp.frees Region.cwksp + 1 := by
            intro mp
            simp [Mem.free, Function.update_same]
          rw [h1, hpres₂.1]
          simp [Mem.alloc, Mem.empty, Function.update_same,
            Function.update_noteq]
    · -- ZSTD_initCCtx fails: -EINVAL
      simp [zstd_comp_init, ha, hi, heinval, Mem.allocCount, Mem.free,
        Mem.alloc, Mem.empty, Function.update_same,
        Function.update_noteq]
  · -- alloc_mem for the compression workspace fails: -ENOMEM
    simp [zstd_comp_init, ha, henomem, Mem.allocCount, Mem.free,
      Mem.alloc, Mem.empty, Function.update_same, Function.update_noteq]

/-- Witness for C4: a concrete failed creation (the `alloc_percpu` tier
fails) leaks the facade record. -/
theorem C4_create_failure_leaks_facade_record_witness :
    ((zcomp_zstd_create 1 tableFail envW ⟨none, Mem.empty⟩).2).mem.allocCount
      .ctxRec = 1 ∧
    ((zcomp_zstd_create 1 tableFail envW ⟨none, Mem.empty⟩).2).mem.frees
      .ctxRec = 0 ∧
    ((zcomp_zstd_create 1 tableFail envW ⟨none, Mem.empty⟩).2).mem.frees
      .cwksp ≥
    ((zcomp_zstd_create 1 tableFail envW ⟨none, Mem.empty⟩).2).mem.allocCount
      .cwksp :=
  C4_create_failure_leaks_facade_record 1 tableFail envW none (by decide)
    (by decide)

/-- C7: `zcomp_zstd_destroy` is safe and idempotent with respect to the
pool table.  For any instance pointer whose workspace field is NULL or the
compression-workspace region (as the backend constructs them): (1) after
any destroy the process-wide `percpu_dctx` is NULL; (2) if `percpu_dctx`
was already NULL, destroy performs no slot frees and no table free; hence
(3) a repeated destroy changes neither the table's nor any slot's free
count. -/
theorem C7_destroy_idempotent_for_pool (nr : Nat) (priv : Option zstd_ctx)
    (g : GState)
    (hw : ∀ ctx, priv = some ctx →
      ctx.cwksp = none ∨ ctx.cwksp = some Region.cwksp) :
    (zcomp_zstd_destroy nr priv g).percpu_dctx = none ∧
    (g.percpu_dctx = none →
      (∀ cpu, (zcomp_zstd_destroy nr priv g).mem.frees (.dwksp cpu) =
        g.mem.frees (.dwksp cpu)) ∧
      (zcomp_zstd_destroy nr priv g).mem.frees .table =
        g.mem.frees .table) ∧
    (∀ priv2, (∀ ctx, priv2 = some ctx →
        ctx.cwksp = none ∨ ctx.cwksp = some Region.cwksp) →
      (∀ cpu,
        (zcomp_zstd_destroy nr priv2
          (zcomp_zstd_destroy nr priv g)).mem.frees (.dwksp cpu) =
        (zcomp_zstd_destroy nr priv g).mem.frees (.dwksp cpu)) ∧
      (zcomp_zstd_destroy nr priv2
          (zcomp_zstd_destroy nr priv g)).mem.frees .table =
        (zcomp_zstd_destroy nr priv g).mem.frees .table) := by
  have hnone : ∀ (p : Option zstd_ctx) (g' : GState),
      g'.percpu_dctx = none →
      (∀ ctx, p = some ctx →
        ctx.cwksp = none ∨ ctx.cwksp = some Region.cwksp) →
      (zcomp_zstd_destroy nr p g').percpu_dctx = none ∧
      (∀ cpu, (zcomp_zstd_destroy nr p g').mem.frees (.dwksp cpu) =
        g'.mem.frees (.dwksp cpu)) ∧
      (zcomp_zstd_destroy nr p g').mem.frees .table =
        g'.mem.frees .table := by
    intro p g' hg hwp
    unfold zcomp_zstd_destroy
    rw [hg]
    cases p with
    | none => exact ⟨rfl, fun cpu => rfl, rfl⟩
    | some ctx =>
      rcases hwp ctx rfl with hc | hc <;>
        refine ⟨rfl, fun cpu => ?_, ?_⟩ <;>
        simp [hc, Mem.free, Function.update_noteq]
  have h1 : (zcomp_zstd_destroy nr priv g).percpu_dctx = none := by
    unfold zcomp_zstd_destroy
    cases hg : g.percpu_dctx <;> cases priv <;> rfl
  refine ⟨h1, ?_, ?_⟩
  · intro hg
    exact (hnone priv g hg hw).2
  · intro priv2 hw2
    exact (hnone priv2 (zcomp_zstd_destroy nr priv g) h1 hw2).2

/-- Witness for C7: destroying a concrete live instance clears
`percpu_dctx`, and a second destroy frees no slot again. -/
theorem C7_destroy_idempotent_for_pool_witness :
    (zcomp_zstd_destroy 1 (some ⟨some Region.cwksp, true⟩)
      ⟨some (fun _ => ⟨some (Region.dwksp 0), true⟩), Mem.empty⟩).percpu_dctx
      = none ∧
    (zcomp_zstd_destroy 1 none
      (zcomp_zstd_destroy 1 (some ⟨some Region.cwksp, true⟩)
        ⟨some (fun _ => ⟨some (Region.dwksp 0), true⟩), Mem.empty⟩)).mem.frees
      (Region.dwksp 0) =
    (zcomp_zstd_destroy 1 (some ⟨some Region.cwksp, true⟩)
      ⟨some (fun _ => ⟨some (Region.dwksp 0), true⟩), Mem.empty⟩).mem.frees
      (Region.dwksp 0) := by
  have h := C7_destroy_idempotent_for_pool 1 (some ⟨some Region.cwksp, true⟩)
    ⟨some (fun _ => ⟨some (Region.dwksp 0), true⟩), Mem.empty⟩
    (fun ctx hc => by cases hc; exact Or.inr rfl)
  exact ⟨h.1, (h.2.2 none (fun ctx hc => by cases hc)).1 0⟩

/-- C9: compression parameters come only from the fixed constants (level
`ZRAM_ZSTD_LEVEL = 1`, size estimate `PAGE_SIZE`, no dictionary), never
from caller input, so in any creation run — over any starting state, hence
across repeated creation cycles — every compression workspace allocated
has the one deterministic size `cwksp_size env` and every per-CPU
decompression workspace allocated has the one deterministic size
`ZSTD_DCtxWorkspaceBound`. -/
theorem C9_fixed_workspace_sizes (nr : Nat) (o : CreateOracle)
    (env : ZstdEnv) (g : GState) :
    zstd_params env = env.ZSTD_getParams 1 env.PAGE_SIZE 0 ∧
    (∀ s, s ∈ ((zcomp_zstd_create nr o env g).2).mem.allocSizes .cwksp →
      s ∈ g.mem.allocSizes .cwksp ∨ s = cwksp_size env) ∧
    (∀ cpu s,
      s ∈ ((zcomp_zstd_create nr o env g).2).mem.allocSizes (.dwksp cpu) →
      s ∈ g.mem.allocSizes (.dwksp cpu) ∨
        s = env.ZSTD_DCtxWorkspaceBound) := by
  refine ⟨rfl, ?_, ?_⟩
  · intro s hs
    unfold zcomp_zstd_create at hs
    by_cases hc : o.ctxAllocOk
    · rw [if_pos hc] at hs
      by_cases hr : (zstd_comp_init o.comp ⟨none, false⟩ env
          (g.mem.alloc Region.ctxRec 1)).1 = 0
      · rw [if_pos hr] at hs
        by_cases hp : (zcomp_zstd_create_percpu nr o.tableOk o.slot env
            ⟨g.percpu_dctx, (zstd_comp_init o.comp ⟨none, false⟩ env
              (g.mem.alloc Region.ctxRec 1)).2.2⟩).1 = 0
        · rw [if_pos hp] at hs
          rw [show ((zcomp_zstd_create_percpu nr o.tableOk o.slot env
              ⟨g.percpu_dctx, (zstd_comp_init o.comp ⟨none, false⟩ env
                (g.mem.alloc Region.ctxRec 1)).2.2⟩).2).mem.allocSizes
              Region.cwksp = ((zstd_comp_init o.comp ⟨none, false⟩ env
                (g.mem.alloc Region.ctxRec 1)).2.2).allocSizes Region.cwksp
            from (zcomp_zstd_create_percpu_preserved nr o.tableOk o.slot
              env _ Region.cwksp (fun c => by simp) (by simp)).2] at hs
          rcases zstd_comp_init_allocSizes_mem o.comp ⟨none, false⟩ env
            (g.mem.alloc Region.ctxRec 1) Region.cwksp s hs with h | h
          · exact Or.inl (by
              rwa [Mem.allocSizes_alloc_ne g.mem Region.ctxRec
                Region.cwksp 1 (by simp)] at h)
          · exact Or.inr h
        · rw [if_neg hp] at hs
          rw [Mem.allocSizes_free] at hs
          rw [show ((zcomp_zstd_create_percpu nr o.tableOk o.slot env
              ⟨g.percpu_dctx, (zstd_comp_init o.comp ⟨none, false⟩ env
                (g.mem.alloc Region.ctxRec 1)).2.2⟩).2).mem.allocSizes
              Region.cwksp = ((zstd_comp_init o.comp ⟨none, false⟩ env
                (g.mem.alloc Region.ctxRec 1)).2.2).allocSizes Region.cwksp
            from (zcomp_zstd_create_percpu_preserved nr o.tableOk o.slot
              env _ Region.cwksp (fun c => by simp) (by simp)).2] at hs
          rcases zstd_comp_init_allocSizes_mem o.comp ⟨none, false⟩ env
            (g.mem.alloc Region.ctxRec 1) Region.cwksp s hs with h | h
          · exact Or.inl (by
              rwa [Mem.allocSizes_alloc_ne g.mem Region.ctxRec
                Region.cwksp 1 (by simp)] at h)
          · exact Or.inr h
      · rw [if_neg hr] at hs
        rw [Mem.allocSizes_free] at hs
        rcases zstd_comp_init_allocSizes_mem o.comp ⟨none, false⟩ env
          (g.mem.alloc Region.ctxRec 1) Region.cwksp s hs with h | h
        · exact Or.inl (by
            rwa [Mem.allocSizes_alloc_ne g.mem Region.ctxRec
              Region.cwksp 1 (by simp)] at h)
        · exact Or.inr h
    · rw [if_neg hc] at hs
      exact Or.inl hs
  · intro cpu s hs
    unfold zcomp_zstd_create at hs
    by_cases hc : o.ctxAllocOk
    · rw [if_pos hc] at hs
      have hbase : ((zstd_comp_init o.comp ⟨none, false⟩ env
          (g.mem.alloc Region.ctxRec 1)).2.2).allocSizes (.dwksp cpu) =
          g.mem.allocSizes (.dwksp cpu) :=
        ((zstd_comp_init_preserved o.comp ⟨none, false⟩ env
          (g.mem.alloc Region.ctxRec 1) (.dwksp cpu) (by simp)).2).trans
          (Mem.allocSizes_alloc_ne g.mem Region.ctxRec (.dwksp cpu) 1
            (by simp))
      by_cases hr : (zstd_comp_init o.comp ⟨none, false⟩ env
          (g.mem.alloc Region.ctxRec 1)).1 = 0
      · rw [if_pos hr] at hs
        by_cases hp : (zcomp_zstd_create_percpu nr o.tableOk o.slot env
            ⟨g.percpu_dctx, (zstd_comp_init o.comp ⟨none, false⟩ env
              (g.mem.alloc Region.ctxRec 1)).2.2⟩).1 = 0
        · rw [if_pos hp] at hs
          rcases zcomp_zstd_create_percpu_allocSizes_mem nr o.tableOk
            o.slot env ⟨g.percpu_dctx, (zstd_comp_init o.comp ⟨none, false⟩
              env (g.mem.alloc Region.ctxRec 1)).2.2⟩ (.dwksp cpu)
            (by simp) s hs with h | h
          · exact Or.inl (by rwa [hbase] at h)
          · exact Or.inr h
        · rw [if_neg hp] at hs
          rw [Mem.allocSizes_free] at hs
          rcases zcomp_zstd_create_percpu_allocSizes_mem nr o.tableOk
            o.slot env ⟨g.percpu_dctx, (zstd_comp_init o.comp ⟨none, false⟩
              env (g.mem.alloc Region.ctxRec 1)).2.2⟩ (.dwksp cpu)
            (by simp) s hs with h | h
          · exact Or.inl (by rwa [hbase] at h)
          · exact Or.inr h
      · rw [if_neg hr] at hs
        rw [Mem.allocSizes_free] at hs
        rw [hbase] at hs
        exact Or.inl hs
    · rw [if_neg hc] at hs
      exact Or.inl hs

/-- Witness for C9: a concrete successful creation allocates the
compression workspace with size `cwksp_size envW = 10` and CPU 0's
decompression workspace with size `ZSTD_DCtxWorkspaceBound = 3`. -/
theorem C9_fixed_workspace_sizes_witness :
    10 ∈ ((zcomp_zstd_create 1 allOk envW
      ⟨none, Mem.empty⟩).2).mem.allocSizes Region.cwksp ∧
    (10 ∈ (⟨none, Mem.empty⟩ : GState).mem.allocSizes Region.cwksp ∨
      (10 : Nat) = cwksp_size envW) ∧
    3 ∈ ((zcomp_zstd_create 1 allOk envW
      ⟨none, Mem.empty⟩).2).mem.allocSizes (Region.dwksp 0) ∧
    (3 ∈ (⟨none, Mem.empty⟩ : GState).mem.allocSizes (Region.dwksp 0) ∨
      (3 : Nat) = envW.ZSTD_DCtxWorkspaceBound) := by
  refine ⟨by decide, ?_, by decide, ?_⟩
  · exact (C9_fixed_workspace_sizes 1 allOk envW ⟨none, Mem.empty⟩).2.1 10
      (by decide)
  · exact (C9_fixed_workspace_sizes 1 allOk envW ⟨none, Mem.empty⟩).2.2 0 3
      (by decide)

/-- C6: `alloc_mem` attempts the direct zeroed allocation (`kzalloc`)
first; the virtual-memory tier (`__vmalloc`) is attempted exactly when the
first fails; it returns NULL exactly when both tiers fail; and when either
tier honours the zeroing contract the returned region is
zero-initialized. -/
theorem C6_alloc_mem_tiered_fallback (kz vm : Nat → Option (List Nat))
    (size : Nat) :
    (alloc_mem kz vm size = none ↔ kz size = none ∧ vm size = none) ∧
    (∀ b, kz size = some b → alloc_mem kz vm size = some b) ∧
    (kz size = none → alloc_mem kz vm size = vm size) ∧
    ((∀ s b, kz s = some b → b = List.replicate s 0) →
     (∀ s b, vm s = some b → b = List.replicate s 0) →
     ∀ b, alloc_mem kz vm size = some b → b = List.replicate size 0) := by
  refine ⟨?_, ?_, ?_, ?_⟩
  · cases hk : kz size <;> simp [alloc_mem, hk]
  · intro b hb
    simp [alloc_mem, hb]
  · intro hk
    simp [alloc_mem, hk]
  · intro hkz hvz b hb
    cases hk : kz size with
    | none =>
      rw [show alloc_mem kz vm size = vm size from by
        simp [alloc_mem, hk]] at hb
      exact hvz size b hb
    | some bk =>
      rw [show alloc_mem kz vm size = some bk from by
        simp [alloc_mem, hk]] at hb
      obtain rfl := Option.some_inj.mp hb
      exact hkz size _ hk

/-- Witness for C6: with a concrete succeeding first tier the result is
the zeroed region from that tier; with a failing first tier and a
succeeding second tier the result is the second tier's zeroed region. -/
theorem C6_alloc_mem_tiered_fallback_witness :
    alloc_mem (fun s => some (List.replicate s 0)) (fun _ => none) 3 =
      some [0, 0, 0] ∧
    alloc_mem (fun _ => none) (fun s => some (List.replicate s 0)) 2 =
      some [0, 0] ∧
    ([0, 0] : List Nat) = List.replicate 2 0 := by
  refine ⟨?_, ?_, ?_⟩
  · exact (C6_alloc_mem_tiered_fallback (fun s => some (List.replicate s 0))
      (fun _ => none) 3).2.1 [0, 0, 0] (by decide)
  · exact ((C6_alloc_mem_tiered_fallback (fun _ => none)
      (fun s => some (List.replicate s 0)) 2).2.2.1 rfl).trans (by decide)
  · exact (C6_alloc_mem_tiered_fallback (fun _ => none)
      (fun s => some (List.replicate s 0)) 2).2.2.2
      (fun s b h => by cases h) (fun s b h => by cases h; rfl) [0, 0]
      (by decide)

/-- C5: whenever `zcomp_zstd_compress` succeeds (returns 0), the length it
publishes in `*dst_len` is at most `2 * PAGE_SIZE`, the destination
capacity it passed to the codec.  Modelled from the spec: the codec,
given a destination capacity, returns on success a length that fits it. -/
theorem C5_compress_length_bounded (C : CCtxFun) (env : ZstdEnv)
    (hcap : ∀ src ss cap p len out, C src ss cap p = (.ok len, out) →
      len ≤ cap)
    (src : List Nat) (dst_len0 : Nat)
    (hz : (zcomp_zstd_compress C env src dst_len0).ret = 0) :
    (zcomp_zstd_compress C env src dst_len0).dst_len ≤
      2 * env.PAGE_SIZE := by
  unfold zcomp_zstd_compress at hz ⊢
  rcases hC : C src env.PAGE_SIZE (2 * env.PAGE_SIZE) (zstd_params env)
    with ⟨res, out⟩
  cases res with
  | err c =>
    simp [hC, ZSTD_isError] at hz
  | ok len =>
    exact hcap src env.PAGE_SIZE (2 * env.PAGE_SIZE) (zstd_params env)
      len out hC

/-- Witness for C5: a concrete codec that respects the capacity gives a
published length within `2 * PAGE_SIZE = 8`. -/
theorem C5_compress_length_bounded_witness :
    (zcomp_zstd_compress (fun s _ cap _ => (.ok (min s.length cap), s))
      envW [9, 8, 7, 6] 0).dst_len ≤ 2 * envW.PAGE_SIZE :=
  C5_compress_length_bounded (fun s _ cap _ => (.ok (min s.length cap), s))
    envW
    (fun src ss cap p len out h => by
      injection h with h1 h2
      injection h1 with h3
      omega)
    [9, 8, 7, 6] 0 (by decide)

/-- C10: when the codec reports an error, `zcomp_zstd_compress` leaves the
caller's `*dst_len` untouched — the length is written only on the success
path, after the error check. -/
theorem C10_dst_len_unchanged_on_error (C : CCtxFun) (env : ZstdEnv)
    (src : List Nat) (dst_len0 : Nat) (c : Nat) (out : List Nat)
    (hE : C src env.PAGE_SIZE (2 * env.PAGE_SIZE) (zstd_params env) =
      (.err c, out)) :
    (zcomp_zstd_compress C env src dst_len0).dst_len = dst_len0 := by
  unfold zcomp_zstd_compress
  rw [hE]

/-- Witness for C10: a concrete failing codec call leaves `*dst_len` at
its prior value 7. -/
theorem C10_dst_len_unchanged_on_error_witness :
    (zcomp_zstd_compress (fun _ _ _ _ => (.err 5, [])) envW
      [1, 2, 3, 4] 7).dst_len = 7 :=
  C10_dst_len_unchanged_on_error (fun _ _ _ _ => (.err 5, [])) envW
    [1, 2, 3, 4] 7 5 [] rfl

/-- C8 counterexample: the claim says the failed compress surfaces the
codec's diagnostic code as its non-zero return value.  At a concrete
input where the codec's diagnostic code is 5, the code logs 5 but returns
`ZSTD_isError`'s boolean value 1 ≠ 5 — the return value does not carry
the diagnostic code. -/
theorem C8_return_value_not_diag_code :
    (zcomp_zstd_compress (fun _ _ _ _ => (.err 5, [])) envW
      [1, 2, 3, 4] 0).logged = some 5 ∧
    (zcomp_zstd_compress (fun _ _ _ _ => (.err 5, [])) envW
      [1, 2, 3, 4] 0).ret = 1 ∧
    (zcomp_zstd_compress (fun _ _ _ _ => (.err 5, [])) envW
      [1, 2, 3, 4] 0).ret ≠ 5 := by
  decide

/-- C8 (amended): on a codec error, `zcomp_zstd_compress` returns the
codec's boolean error indicator `ZSTD_isError` (the non-zero value 1, not
the diagnostic code) and logs the diagnostic code; it returns 0 and
publishes the compressed length exactly when the codec succeeds. -/
theorem C8_compress_error_reporting (C : CCtxFun) (env : ZstdEnv)
    (src : List Nat) (dst_len0 : Nat) :
    (∀ c out, C src env.PAGE_SIZE (2 * env.PAGE_SIZE) (zstd_params env) =
        (.err c, out) →
      (zcomp_zstd_compress C env src dst_len0).ret =
        (ZSTD_isError (.err c) : Nat) ∧
      (zcomp_zstd_compress C env src dst_len0).ret ≠ 0 ∧
      (zcomp_zstd_compress C env src dst_len0).logged = some c) ∧
    (∀ len out, C src env.PAGE_SIZE (2 * env.PAGE_SIZE) (zstd_params env) =
        (.ok len, out) →
      (zcomp_zstd_compress C env src dst_len0).ret = 0 ∧
      (zcomp_zstd_compress C env src dst_len0).dst_len = len ∧
      (zcomp_zstd_compress C env src dst_len0).logged = none) := by
  constructor
  · intro c out hE
    unfold zcomp_zstd_compress
    rw [hE]
    exact ⟨rfl, by simp [ZSTD_isError], by simp [ZSTD_getErrorCode]⟩
  · intro len out hO
    unfold zcomp_zstd_compress
    rw [hO]
    exact ⟨rfl, rfl, rfl⟩

/-- Witness for C8: the amended behaviour at a concrete failing codec and
a concrete succeeding codec. -/
theorem C8_compress_error_reporting_witness :
    ((zcomp_zstd_compress (fun _ _ _ _ => (.err 5, [])) envW
        [1, 2, 3, 4] 0).ret ≠ 0 ∧
     (zcomp_zstd_compress (fun _ _ _ _ => (.err 5, [])) envW
        [1, 2, 3, 4] 0).logged = some 5) ∧
    ((zcomp_zstd_compress (fun s _ _ _ => (.ok s.length, s)) envW
        [1, 2, 3, 4] 0).ret = 0 ∧
     (zcomp_zstd_compress (fun s _ _ _ => (.ok s.length, s)) envW
        [1, 2, 3, 4] 0).dst_len = 4) := by
  constructor
  · have h := (C8_compress_error_reporting (fun _ _ _ _ => (.err 5, []))
      envW [1, 2, 3, 4] 0).1 5 [] rfl
    exact ⟨h.2.1, h.2.2⟩
  · have h := (C8_compress_error_reporting
      (fun s _ _ _ => (.ok s.length, s)) envW [1, 2, 3, 4] 0).2 4
      [1, 2, 3, 4] rfl
    exact ⟨h.1, h.2.1⟩

/-- C3: for every one-page input, decompressing the output of a
successful compress (using the published compressed length) reproduces
the input exactly into the one-page output buffer.  Modelled from the
spec: the round-trip capability is the external codec's contract — for a
one-page source, the decompression engine inverts what the compression
engine produced; the theorem shows the backend's compress/decompress
wrappers preserve it (they hand the right bytes, lengths and capacities
through and report success). -/
theorem C3_round_trip (C : CCtxFun) (D : DCtxFun) (env : ZstdEnv)
    (hrt : ∀ src len out, src.length = env.PAGE_SIZE →
      C src env.PAGE_SIZE (2 * env.PAGE_SIZE) (zstd_params env) =
        (.ok len, out) →
      D out len env.PAGE_SIZE = (.ok env.PAGE_SIZE, src))
    (src : List Nat) (hsrc : src.length = env.PAGE_SIZE) (dst_len0 : Nat)
    (hz : (zcomp_zstd_compress C env src dst_len0).ret = 0) :
    (zcomp_zstd_decompress D env
      (zcomp_zstd_compress C env src dst_len0).dst
      (zcomp_zstd_compress C env src dst_len0).dst_len).ret = 0 ∧
    (zcomp_zstd_decompress D env
      (zcomp_zstd_compress C env src dst_len0).dst
      (zcomp_zstd_compress C env src dst_len0).dst_len).dst = src := by
  unfold zcomp_zstd_compress at hz ⊢
  rcases hC : C src env.PAGE_SIZE (2 * env.PAGE_SIZE) (zstd_params env)
    with ⟨res, out⟩
  cases res with
  | err c =>
    simp [hC, ZSTD_isError] at hz
  | ok len =>
    have hD := hrt src len out hsrc hC
    simp only [hC]
    unfold zcomp_zstd_decompress
    rw [hD]
    exact ⟨rfl, rfl⟩

/-- Witness for C3: with a concrete invertible codec pair, compressing
and decompressing the page `[9, 8, 7, 6]` returns it exactly. -/
theorem C3_round_trip_witness :
    (zcomp_zstd_decompress (fun s _ _ => (.ok 4, s)) envW
      (zcomp_zstd_compress (fun s _ _ _ => (.ok s.length, s)) envW
        [9, 8, 7, 6] 0).dst
      (zcomp_zstd_compress (fun s _ _ _ => (.ok s.length, s)) envW
        [9, 8, 7, 6] 0).dst_len).ret = 0 ∧
    (zcomp_zstd_decompress (fun s _ _ => (.ok 4, s)) envW
      (zcomp_zstd_compress (fun s _ _ _ => (.ok s.length, s)) envW
        [9, 8, 7, 6] 0).dst
      (zcomp_zstd_compress (fun s _ _ _ => (.ok s.length, s)) envW
        [9, 8, 7, 6] 0).dst_len).dst = [9, 8, 7, 6] :=
  C3_round_trip (fun s _ _ _ => (.ok s.length, s)) (fun s _ _ => (.ok 4, s))
    envW
    (fun src len out h1 h2 => by
      injection h2 with h3 h4
      injection h3 with h5
      subst h4
      subst h5
      simp [envW])
    [9, 8, 7, 6] (by decide) 0 (by decide)
